import Mathlib

/-!
Shallow embedding of the visa-bot repository (src/main.py, src/visa_checker.py,
src/telegram_handler.py, src/telegram_notifier.py).

HTTP calls are embedded by passing each endpoint's observed response as an
explicit argument (status code plus decoded body); Python dictionaries with
optional fields become structures of `Option` fields; Python truthiness of a
value (`None`, `""` and `[]` are falsy) is made explicit in the helper
functions below.
-/

namespace VisaBot

/-- Python truthiness filter for an optional string field of a JSON object:
`none` models an absent key, and the empty string is falsy, so both collapse
to `none` (used to embed Python `d.get(k) or fallback` chains). -/
def strField (o : Option String) : Option String :=
  match o with
  | some s => if s = "" then none else some s
  | none => none

/-- Python truthiness filter for an optional list field: an absent key and an
empty list are both falsy. -/
def listField (o : Option (List String)) : Option (List String) :=
  match o with
  | some l => if l = [] then none else some l
  | none => none

/-- Python `a or b` on strings: `""` is falsy. -/
def pyOrString (a b : String) : String :=
  if a = "" then b else a

/-- Python `a or b` on lists: `[]` is falsy. -/
def pyOrList (a b : List String) : List String :=
  if a = [] then b else a

/-- Python truthiness of the `error` field of a result dict (`None` and `""`
are falsy). -/
def pyTruthy (o : Option String) : Bool :=
  match o with
  | some s => decide (s ≠ "")
  | none => false

/-! ## visa_checker.py -/

/-- `COUNTRY_NAMES` of src/visa_checker.py: country code to display name. -/
def COUNTRY_NAMES : List (String × String) :=
  [("vnm", "Việt Nam"), ("fra", "Pháp"), ("deu", "Đức"), ("ita", "Ý"),
   ("esp", "Tây Ban Nha"), ("nld", "Hà Lan"), ("bel", "Bỉ"), ("che", "Thụy Sĩ"),
   ("aut", "Áo"), ("prt", "Bồ Đào Nha"), ("grc", "Hy Lạp"), ("dnk", "Đan Mạch"),
   ("swe", "Thụy Điển"), ("fin", "Phần Lan"), ("nor", "Na Uy"), ("pol", "Ba Lan"),
   ("hrv", "Croatia"), ("lux", "Luxembourg"), ("mlt", "Malta")]

/-- `VFSChecker.target_name`: `COUNTRY_NAMES.get(self.target, self.target.upper())`
where `self.target` is the lower-cased target country code. -/
def targetName (target : String) : String :=
  (COUNTRY_NAMES.lookup target.toLower).getD target.toLower.toUpper

/-- `VFSChecker.portal_url` built in `__init__`. -/
def portalUrl (origin target : String) : String :=
  "https://visa.vfsglobal.com/" ++ origin.toLower ++ "/en/" ++ target.toLower

/-- One decoded center object of the `checkslots` response body. Each field
name the code probes with `.get` is one optional field here. -/
structure CenterPayload where
  centerName : Option String
  name : Option String
  locationName : Option String
  slots : Option (List String)
  availableSlots : Option (List String)
  earliestDate : Option String
  firstAvailableDate : Option String
deriving DecidableEq

/-- The payload with every recognized field absent. -/
def emptyCenter : CenterPayload :=
  ⟨none, none, none, none, none, none, none⟩

/-- Center-name extraction of `check_available_slots` (visa_checker.py lines
182-187): `center.get("centerName") or center.get("name") or
center.get("locationName") or "Không rõ"`. -/
def extractName (c : CenterPayload) : String :=
  (strField c.centerName <|> strField c.name <|> strField c.locationName).getD "Không rõ"

/-- Slot-list extraction (lines 188-192): `center.get("slots") or
center.get("availableSlots") or []`. -/
def extractSlots (c : CenterPayload) : List String :=
  (listField c.slots <|> listField c.availableSlots).getD []

/-- Earliest-date extraction (lines 193-197): `center.get("earliestDate") or
center.get("firstAvailableDate") or ""`. -/
def extractEarliest (c : CenterPayload) : String :=
  (strField c.earliestDate <|> strField c.firstAvailableDate).getD ""

/-- Line 200: `if slots or earliest` — the center's summary indicates
availability. -/
def hasAvailability (c : CenterPayload) : Bool :=
  decide (extractSlots c ≠ []) || decide (extractEarliest c ≠ "")

/-- Decoded body of the `slots/checkavailability` response: a JSON array (whose
entries render to strings), a JSON object that may or may not carry a `dates`
key, or any other JSON value. -/
inductive DetailBody
  | arr (xs : List String)
  | obj (dates : Option (List String))
  | other
deriving DecidableEq

/-- Observed outcome of the per-center detail request: a raised transport
exception (timeout etc.), or an HTTP response with its status and body. -/
inductive DetailResponse
  | failure
  | http (status : Nat) (body : DetailBody)
deriving DecidableEq

/-- `VFSChecker._get_earliest_dates` (visa_checker.py lines 118-148): on a 200
response whose body is a list, keep the truthy entries rendered to strings; on
a 200 response whose body is a dict with a `dates` key, return it; in every
other case (exception, non-200 status, other body shapes) fall through to
an empty list. -/
def get_earliest_dates (r : DetailResponse) : List String :=
  match r with
  | .failure => []
  | .http status body =>
      if status = 200 then
        match body with
        | .arr xs => xs.filter (fun d => decide (d ≠ ""))
        | .obj (some ds) => ds
        | .obj none => []
        | .other => []
      else []

/-- One element of the decoded `checkslots` body: a JSON dict (decoded into a
`CenterPayload`) or any non-dict value, which the loop skips. -/
inductive RawCenter
  | dict (p : CenterPayload)
  | nonDict
deriving DecidableEq

/-- The whole `checkslots` body: `raw if isinstance(raw, list) else [raw]`
(line 175). -/
inductive CentersRaw
  | list (cs : List RawCenter)
  | single (c : RawCenter)
deriving DecidableEq

def centersOf (raw : CentersRaw) : List RawCenter :=
  match raw with
  | .list cs => cs
  | .single c => [c]

/-- The result dict appended for an available center (lines 202-207). -/
structure SlotRecord where
  center : String
  earliest_date : String
  slots : List String
  booking_url : String
deriving DecidableEq

/-- Builds the record appended at lines 202-207 for one available center:
`earliest_date` is `earliest or (dates[0] if dates else "")` and `slots` is
`dates or slots`; `details` gives each center name's detail-fetch outcome. -/
def mkSlotRecord (portal : String) (details : String → DetailResponse)
    (p : CenterPayload) : SlotRecord :=
  let nm := extractName p
  let dates := get_earliest_dates (details nm)
  ⟨nm, pyOrString (extractEarliest p) (dates.headD ""), pyOrList dates (extractSlots p), portal⟩

/-- One iteration of the center loop (lines 177-207): non-dict entries are
skipped, dict entries are kept exactly when their summary indicates
availability. -/
def centerStep (portal : String) (details : String → DetailResponse) :
    RawCenter → Option SlotRecord
  | .dict p => if hasAvailability p then some (mkSlotRecord portal details p) else none
  | .nonDict => none

/-- The center loop of `check_available_slots` over the decoded center list. -/
def processCenters (portal : String) (details : String → DetailResponse)
    (cs : List RawCenter) : List SlotRecord :=
  cs.filterMap (centerStep portal details)

/-- The dict entries of the decoded center list, in order. -/
def dictPayloads (cs : List RawCenter) : List CenterPayload :=
  cs.filterMap (fun rc => match rc with | .dict p => some p | .nonDict => none)

/-- Decoded body and status of the `user/login` response: the two token field
names the code probes, plus the rendered raw body used in the `ValueError`
message. -/
structure LoginResponse where
  status : Nat
  token : Option String
  access_token : Option String
  rawBody : String
deriving DecidableEq

/-- `httpx.Response.raise_for_status` raises unless the status is a 2xx
success. -/
def isSuccessStatus (s : Nat) : Bool :=
  decide (200 ≤ s) && decide (s < 300)

/-- Line 90: `data.get("token") or data.get("access_token")`. -/
def extractToken (r : LoginResponse) : Option String :=
  strField r.token <|> strField r.access_token

/-- The `ConnectionError` message built at lines 162-165 for a failed login:
it carries the HTTP status code and the credentials hint. -/
def loginErrorMessage (status : Nat) : String :=
  "Đăng nhập thất bại (HTTP " ++ (toString status ++ "): Kiểm tra lại VFS_USERNAME / VFS_PASSWORD")

/-- The `ValueError` message of line 92, which includes the rendered raw
response body. -/
def missingTokenMessage (rawBody : String) : String :=
  "Không lấy được token. Response: " ++ rawBody

/-- The `ConnectionError` message of line 170 for a failed centers query. -/
def centersErrorMessage (status : Nat) : String :=
  "Lỗi khi kiểm tra slot: HTTP " ++ toString status

/-- The errors `check_available_slots` can raise: `ConnectionError` (translated
from an `httpx.HTTPStatusError`) or the `ValueError` of `_login`. -/
inductive CheckError
  | connectionError (msg : String)
  | valueError (msg : String)
deriving DecidableEq

/-- `str(e)` of a raised error: both classes render to their message. -/
def errorText (e : CheckError) : String :=
  match e with
  | .connectionError m => m
  | .valueError m => m

/-- `_login` (lines 71-94) composed with the `except httpx.HTTPStatusError`
handler of `check_available_slots` (lines 159-165): a non-success status
becomes a `ConnectionError` carrying the status and a credentials hint; a
success response without a truthy token field becomes the `ValueError`
including the raw body; otherwise the token is returned. -/
def authenticate (r : LoginResponse) : Except CheckError String :=
  if isSuccessStatus r.status then
    match extractToken r with
    | some t => .ok t
    | none => .error (.valueError (missingTokenMessage r.rawBody))
  else
    .error (.connectionError (loginErrorMessage r.status))

/-- `check_available_slots` (lines 150-209) in the case where both HTTP calls
receive a decoded response: login, centers query (whose non-success status
becomes a `ConnectionError` via lines 167-170), then the center loop. `login`
is the login endpoint's response, `centersStatus` and `raw` the centers
query's response, `details` each center name's detail-request outcome. The
calls themselves can also raise exceptions the function does not catch (only
`httpx.HTTPStatusError` is translated); `check_available_slots_total` below
covers that full failure space. -/
def check_available_slots (login : LoginResponse) (centersStatus : Nat)
    (raw : CentersRaw) (details : String → DetailResponse) (portal : String) :
    Except CheckError (List SlotRecord) :=
  match authenticate login with
  | .error e => .error e
  | .ok _ =>
      if isSuccessStatus centersStatus then
        .ok (processCenters portal details (centersOf raw))
      else
        .error (.connectionError (centersErrorMessage centersStatus))

/-- One HTTP call's observed behaviour, exceptions included: either a decoded
response of type `α`, or an exception other than `httpx.HTTPStatusError`
propagated out of the call (a transport error such as a timeout or connection
failure, or a `resp.json()` decode failure), carrying its rendered `str(e)`
text — which Python does not guarantee to be non-empty. -/
inductive HttpStep (α : Type)
  | response (r : α)
  | raised (msg : String)
deriving DecidableEq

/-- An exception reaching the `except Exception as e` handler of
`check_one_country` (main.py line 88): either an error
`check_available_slots` raises itself, or an uncaught exception propagated
from one of its HTTP calls. -/
inductive RaisedError
  | checker (e : CheckError)
  | transport (msg : String)
deriving DecidableEq

/-- `str(e)` of an exception reaching the handler. -/
def raisedText (e : RaisedError) : String :=
  match e with
  | .checker ce => errorText ce
  | .transport m => m

/-- `check_available_slots` over its full failure space: the login call may
raise (before anything else), a decoded login response is handled as in
`authenticate`, then the centers call may raise, and a decoded centers
response is handled exactly as in `check_available_slots`. Uncaught raises
propagate with their own rendered text. -/
def check_available_slots_total (loginStep : HttpStep LoginResponse)
    (centersStep : HttpStep (Nat × CentersRaw)) (details : String → DetailResponse)
    (portal : String) : Except RaisedError (List SlotRecord) :=
  match loginStep with
  | .raised m => .error (.transport m)
  | .response lr =>
      match authenticate lr with
      | .error e => .error (.checker e)
      | .ok _ =>
          match centersStep with
          | .raised m => .error (.transport m)
          | .response sr =>
              (check_available_slots lr sr.1 sr.2 details portal).mapError RaisedError.checker

/-! ## main.py -/

/-- The result dict of `check_one_country` (main.py lines 80-97), minus the
`checker` object itself. -/
structure CountryResult where
  country : String
  name : String
  slots : List SlotRecord
  portal_url : String
  error : Option String
deriving DecidableEq

/-- `check_one_country` (main.py lines 62-97), with the awaited
`check_available_slots` call's outcome passed in: on success the error field
is `None` and the slots are the checker's list; on a raised error the error
field is `str(e)` and the slots are `[]`. -/
def check_one_country (origin country : String)
    (outcome : Except CheckError (List SlotRecord)) : CountryResult :=
  match outcome with
  | .ok slots => ⟨country, targetName country, slots, portalUrl origin country, none⟩
  | .error e => ⟨country, targetName country, [], portalUrl origin country, some (errorText e)⟩

/-- `check_one_country` (main.py lines 62-97) over the full failure space of
the awaited check: the `except Exception as e` handler of line 88 catches
both the checker's own raised errors and uncaught propagated exceptions, and
records `str(e)` either way. -/
def check_one_country_total (origin country : String)
    (outcome : Except RaisedError (List SlotRecord)) : CountryResult :=
  match outcome with
  | .ok slots => ⟨country, targetName country, slots, portalUrl origin country, none⟩
  | .error e => ⟨country, targetName country, [], portalUrl origin country, some (raisedText e)⟩

/-- The sequential multi-country loop of `main` (main.py lines 115-119):
one `check_one_country` per configured country, results appended in order.
`outcome` gives each country's checker outcome. -/
def sweep (origin : String) (outcome : String → Except CheckError (List SlotRecord))
    (countries : List String) : List CountryResult :=
  countries.map (fun c => check_one_country origin c (outcome c))

/-- `is_daily_report_time` (main.py lines 57-59) with the current UTC+7
wall-clock hour and minute passed in: `now_vn.hour == daily_hour and
now_vn.minute < 30`. -/
def is_daily_report_time (dailyHour h m : Nat) : Bool :=
  (h == dailyHour) && decide (m < 30)

/-- The messages the notification phase of `main` (lines 121-148) sends. -/
inductive SentMessage
  | slotsFound (country : String)
  | errorSummary (text : String)
  | dailyDigest
deriving DecidableEq

/-- One iteration of the slots-found loop (lines 123-134): countries with a
truthy error are skipped, countries with a non-empty slot list get one
`send_slots_found` message. -/
def slotNotif (r : CountryResult) : Option SentMessage :=
  if pyTruthy r.error then none
  else if decide (r.slots ≠ []) then some (.slotsFound r.country) else none

/-- The combined error summary text of lines 140-143. -/
def errorSummaryText (errs : List CountryResult) : String :=
  String.intercalate "\n" (errs.map (fun r => "• " ++ r.name ++ ": " ++ r.error.getD ""))

/-- Line 140: `errors = [r for r in results if r["error"]]`. -/
def errorCountries (results : List CountryResult) : List CountryResult :=
  results.filter (fun r => pyTruthy r.error)

/-- Lines 140-143: the countries with truthy errors are batched into one
`send_error` message, sent only when there is at least one. -/
def errorNotif (results : List CountryResult) : List SentMessage :=
  if errorCountries results ≠ [] then
    [.errorSummary (errorSummaryText (errorCountries results))]
  else []

/-- The notification phase of `main` (lines 121-148): per-country slots-found
messages, then at most one combined error message, then the daily digest
exactly when `digestDue` (the `is_daily_report_time` test of line 146) holds. -/
def notificationPhase (results : List CountryResult) (digestDue : Bool) :
    List SentMessage :=
  results.filterMap slotNotif ++ errorNotif results ++
    (if digestDue then [.dailyDigest] else [])

/-! ## telegram_handler.py -/

/-- `COMMAND_MAP` of src/telegram_handler.py. -/
def COMMAND_MAP : List (String × String) :=
  [("/france", "fra"), ("/phap", "fra"), ("/italy", "ita"), ("/italia", "ita"),
   ("/spain", "esp"), ("/tbn", "esp"), ("/portugal", "prt"), ("/bdn", "prt")]

/-- Python `str.strip()` on the character list of a string. -/
def trimChars (cs : List Char) : List Char :=
  ((cs.dropWhile Char.isWhitespace).reverse.dropWhile Char.isWhitespace).reverse

/-- Python `text.split()[0]` for stripped non-empty `text`: drop leading
whitespace, then take the first run of non-whitespace characters. -/
def firstTokenChars (cs : List Char) : List Char :=
  (cs.dropWhile Char.isWhitespace).takeWhile (fun c => !c.isWhitespace)

/-- Python `tok.split("@")[0]`: the characters before the first `@`. -/
def charsBeforeAt (cs : List Char) : List Char :=
  cs.takeWhile (fun c => c ≠ '@')

/-- Line 179 of telegram_handler.py:
`text.split()[0].split("@")[0].lower() if text else ""` applied to the
stripped message text. -/
def rawCmd (msgText : String) : String :=
  let text := trimChars msgText.data
  if text = [] then ""
  else ⟨(charsBeforeAt (firstTokenChars text)).map Char.toLower⟩

/-- What the dispatch of lines 180-206 does with one update's text. `ignore`
is the `continue` of line 181 (no reply is sent on that path). -/
inductive Action
  | help
  | checkAll
  | checkCountry (code : String)
  | unrecognized (cmd : String)
  | ignore
deriving DecidableEq

/-- Python `raw_cmd.startswith("/")`, read off the first character. -/
def startsWithSlash (s : String) : Bool :=
  match s.data with
  | [] => false
  | c :: _ => c == '/'

/-- The command dispatch of `main` (telegram_handler.py lines 179-206) for one
update's message text. -/
def dispatch (msgText : String) : Action :=
  let raw := rawCmd msgText
  if !startsWithSlash raw then .ignore
  else if raw = "/help" then .help
  else if raw = "/all" ∨ raw = "/status" then .checkAll
  else
    match COMMAND_MAP.lookup raw with
    | some code => .checkCountry code
    | none => .unrecognized raw

/-- One fetched Telegram update, reduced to the fields the loop reads. -/
structure Update where
  update_id : Nat
  chat_id : String
  text : String
deriving DecidableEq

/-- The update loop of `main` (telegram_handler.py lines 165-206): updates
already processed or from another chat are skipped (line 174); each remaining
update's id is recorded and its text dispatched. Returns the (update id,
action) trace in processing order. -/
def processUpdates (chatId : String) : List Update → List Nat → List (Nat × Action)
  | [], _ => []
  | u :: rest, processed =>
      if u.update_id ∈ processed ∨ u.chat_id ≠ chatId then
        processUpdates chatId rest processed
      else
        (u.update_id, dispatch u.text) :: processUpdates chatId rest (u.update_id :: processed)

/-! ## Helper lemmas -/

/-- A string with a non-empty left component is non-empty. -/
theorem append_ne_empty (p q : String) (hp : p.length ≠ 0) : p ++ q ≠ "" := by
  intro h
  apply hp
  have h2 := congrArg String.length h
  rw [String.length_append] at h2
  simp at h2
  omega

/-- The login `ConnectionError` message is never the empty string. -/
theorem loginErrorMessage_ne (s : Nat) : loginErrorMessage s ≠ "" :=
  append_ne_empty _ _ (by decide)

/-- The missing-token `ValueError` message is never the empty string. -/
theorem missingTokenMessage_ne (raw : String) : missingTokenMessage raw ≠ "" :=
  append_ne_empty _ _ (by decide)

/-- The centers-query `ConnectionError` message is never the empty string. -/
theorem centersErrorMessage_ne (s : Nat) : centersErrorMessage s ≠ "" :=
  append_ne_empty _ _ (by decide)

/-- Every error `authenticate` produces renders to a non-empty text. -/
theorem authenticate_error_nonempty (r : LoginResponse) (e : CheckError)
    (h : authenticate r = .error e) : errorText e ≠ "" := by
  unfold authenticate at h
  by_cases hs : isSuccessStatus r.status = true
  · rw [if_pos hs] at h
    cases ht : extractToken r with
    | some t => rw [ht] at h; exact absurd h (by simp)
    | none =>
        rw [ht] at h
        simp only [Except.error.injEq] at h
        subst h
        exact missingTokenMessage_ne _
  · rw [if_neg hs] at h
    simp only [Except.error.injEq] at h
    subst h
    exact loginErrorMessage_ne _

/-- Every error `check_available_slots` produces renders to a non-empty text. -/
theorem check_error_nonempty (login : LoginResponse) (cStatus : Nat)
    (raw : CentersRaw) (details : String → DetailResponse) (portal : String)
    (e : CheckError)
    (h : check_available_slots login cStatus raw details portal = .error e) :
    errorText e ≠ "" := by
  unfold check_available_slots at h
  cases ha : authenticate login with
  | error ea =>
      rw [ha] at h
      simp only [Except.error.injEq] at h
      subst h
      exact authenticate_error_nonempty login ea ha
  | ok t =>
      rw [ha] at h
      by_cases hc : isSuccessStatus cStatus = true
      · rw [if_pos hc] at h; exact absurd h (by simp)
      · rw [if_neg hc] at h
        simp only [Except.error.injEq] at h
        subst h
        exact centersErrorMessage_ne _

/-- `a or ""` is `a` in Python. -/
theorem pyOrString_empty (a : String) : pyOrString a "" = a := by
  unfold pyOrString
  split
  · simp_all
  · rfl

/-- `[] or b` is `b` in Python. -/
theorem pyOrList_nil (b : List String) : pyOrList [] b = b := by
  simp [pyOrList]

/-- A record emitted for a center with indicated availability has a non-empty
slot list or a non-empty earliest date. -/
theorem mkSlotRecord_available (portal : String) (details : String → DetailResponse)
    (p : CenterPayload) (hp : hasAvailability p = true) :
    (mkSlotRecord portal details p).slots ≠ [] ∨
      (mkSlotRecord portal details p).earliest_date ≠ "" := by
  simp only [hasAvailability, Bool.or_eq_true, decide_eq_true_eq] at hp
  simp only [mkSlotRecord, pyOrString, pyOrList]
  rcases hp with hp | hp
  · left; split <;> simp_all
  · right; split <;> simp_all

/-- The digest message is emitted exactly when the daily-report test holds,
and therefore at most once per run. -/
theorem count_digest (results : List CountryResult) (d : Bool) :
    (notificationPhase results d).count SentMessage.dailyDigest = if d then 1 else 0 := by
  unfold notificationPhase
  rw [List.count_append, List.count_append]
  have h1 : (results.filterMap slotNotif).count SentMessage.dailyDigest = 0 := by
    rw [List.count_eq_zero]
    intro hmem
    simp only [List.mem_filterMap] at hmem
    obtain ⟨r, _, hr⟩ := hmem
    unfold slotNotif at hr
    split at hr
    · exact absurd hr (by simp)
    · split at hr <;> simp at hr
  have h2 : (errorNotif results).count SentMessage.dailyDigest = 0 := by
    unfold errorNotif
    split <;> simp [List.count_cons, List.count_nil]
  rw [h1, h2]
  cases d <;> simp

/-- A trace entry for an update id already marked processed never occurs. -/
theorem processUpdates_count_of_mem (chatId : String) (updates : List Update) :
    ∀ (processed : List Nat) (i : Nat), i ∈ processed →
      (processUpdates chatId updates processed).countP (fun p => p.1 == i) = 0 := by
  induction updates with
  | nil => intro processed i _; rfl
  | cons u rest ih =>
      intro processed i hi
      unfold processUpdates
      by_cases hc : u.update_id ∈ processed ∨ u.chat_id ≠ chatId
      · rw [if_pos hc]; exact ih processed i hi
      · rw [if_neg hc]
        have h0 := ih (u.update_id :: processed) i (List.mem_cons_of_mem _ hi)
        push_neg at hc
        have hne : (u.update_id == i) = false := by
          simp only [beq_eq_false_iff_ne, ne_eq]
          intro heq
          exact hc.1 (heq ▸ hi)
        simp [List.countP_cons, hne, h0]

/-- Each update id appears at most once in the processing trace. -/
theorem processUpdates_count_le (chatId : String) (updates : List Update) :
    ∀ (processed : List Nat) (i : Nat),
      (processUpdates chatId updates processed).countP (fun p => p.1 == i) ≤ 1 := by
  induction updates with
  | nil => intro _ _; simp [processUpdates]
  | cons u rest ih =>
      intro processed i
      unfold processUpdates
      by_cases hc : u.update_id ∈ processed ∨ u.chat_id ≠ chatId
      · rw [if_pos hc]; exact ih processed i
      · rw [if_neg hc]
        by_cases heq : u.update_id = i
        · subst heq
          have h0 := processUpdates_count_of_mem chatId rest
            (u.update_id :: processed) u.update_id (List.mem_cons_self _ _)
          simp [List.countP_cons, h0]
        · have hne : (u.update_id == i) = false := by simp [heq]
          have h1 := ih (u.update_id :: processed) i
          simp only [List.countP_cons, hne, if_false]
          simpa using h1

/-! ## Claim theorems -/

/-- C2: for every configured target-country list, the sweep produces exactly
one result per country, the result list preserves the input order position by
position, and each position's result is computed from that country's own
checker outcome alone, so a failure of one country never prevents or alters
any other country's check. -/
theorem sweep_order_and_isolation (origin : String)
    (outcome : String → Except CheckError (List SlotRecord)) (countries : List String) :
    (sweep origin outcome countries).length = countries.length ∧
    (sweep origin outcome countries).map (fun r => r.country) = countries ∧
    (∀ i : Nat, (sweep origin outcome countries)[i]?
      = (countries[i]?).map (fun c => check_one_country origin c (outcome c))) := by
  refine ⟨by simp [sweep], ?_, ?_⟩
  · induction countries with
    | nil => rfl
    | cons c rest ih =>
        refine List.cons_eq_cons.mpr ⟨?_, ih⟩
        show (check_one_country origin c (outcome c)).country = c
        cases h : outcome c <;> simp [check_one_country, h]
  · intro i
    simp [sweep, List.getElem?_map]

/-- C3: every recognized field-name alias alone resolves to the same canonical
value as the primary alias alone (truthy value in hand), and with no alias
present the extraction falls back to the sentinels: the "Không rõ" (unknown)
name, the empty slot list and the empty earliest date. -/
theorem alias_equivalence (v : String) (hv : v ≠ "") (l : List String) (hl : l ≠ [])
    (e : String) (he : e ≠ "") :
    (extractName ⟨some v, none, none, none, none, none, none⟩ = v ∧
      extractName ⟨none, some v, none, none, none, none, none⟩ = v ∧
      extractName ⟨none, none, some v, none, none, none, none⟩ = v) ∧
    (extractSlots ⟨none, none, none, some l, none, none, none⟩ = l ∧
      extractSlots ⟨none, none, none, none, some l, none, none⟩ = l) ∧
    (extractEarliest ⟨none, none, none, none, none, some e, none⟩ = e ∧
      extractEarliest ⟨none, none, none, none, none, none, some e⟩ = e) ∧
    (extractName emptyCenter = "Không rõ" ∧ extractSlots emptyCenter = [] ∧
      extractEarliest emptyCenter = "") := by
  simp [extractName, extractSlots, extractEarliest, strField, listField, emptyCenter, hv, hl, he]

/-- Witness for C3 at the concrete values "Paris" and "2025-06-01". -/
theorem alias_equivalence_witness :
    extractName ⟨none, some "Paris", none, none, none, none, none⟩ = "Paris" ∧
    extractSlots ⟨none, none, none, none, some ["2025-06-01"], none, none⟩ = ["2025-06-01"] ∧
    extractEarliest ⟨none, none, none, none, none, none, some "2025-06-01"⟩ = "2025-06-01" ∧
    extractName emptyCenter = "Không rõ" := by
  obtain ⟨⟨_, h1, _⟩, ⟨_, h2⟩, ⟨_, h3⟩, h4, _, _⟩ :=
    alias_equivalence "Paris" (by decide) ["2025-06-01"] (by decide) "2025-06-01" (by decide)
  exact ⟨h1, h2, h3, h4⟩

/-- C4: for every UTC+7 hour in 0..23 and minute in 0..59, the daily-report
test is true exactly when the hour equals the configured report hour and the
minute is strictly below 30, and a run's notification phase emits the daily
digest at most once. -/
theorem daily_report_window (dailyHour h m : Nat) (hh : h < 24) (hm : m < 60)
    (results : List CountryResult) :
    (is_daily_report_time dailyHour h m = true ↔ (h = dailyHour ∧ m < 30)) ∧
    (notificationPhase results
        (is_daily_report_time dailyHour h m)).count SentMessage.dailyDigest ≤ 1 := by
  constructor
  · simp [is_daily_report_time]
  · rw [count_digest]
    split <;> simp

/-- Witness for C4 at report hour 12, wall-clock 12:00, with no results. -/
theorem daily_report_window_witness :
    (is_daily_report_time 12 12 0 = true ↔ (12 = 12 ∧ 0 < 30)) ∧
    (notificationPhase [] (is_daily_report_time 12 12 0)).count SentMessage.dailyDigest ≤ 1 :=
  daily_report_window 12 12 0 (by decide) (by decide) []

/-- C5: "/France@MyBot hello" resolves to the command token "/france" and is
routed to the France check; a text not starting with "/" takes the silent
ignore path (the loop continues without a reply); an unknown "/..." token
takes the unrecognized-command path; and within one fetched update list each
update id is processed at most once. -/
theorem command_parsing_and_dedup :
    rawCmd "/France@MyBot hello" = "/france" ∧
    dispatch "/France@MyBot hello" = Action.checkCountry "fra" ∧
    dispatch "just text" = Action.ignore ∧
    dispatch "/unknown" = Action.unrecognized "/unknown" ∧
    (∀ (chatId : String) (updates : List Update) (i : Nat),
      (processUpdates chatId updates []).countP (fun p => p.1 == i) ≤ 1) := by
  refine ⟨by decide, by decide, by decide, by decide, ?_⟩
  intro chatId updates i
  exact processUpdates_count_le chatId updates [] i

/-- C6: the center loop emits records exactly for the dict payloads whose
summary indicates availability (non-empty extracted slot list or non-empty
extracted earliest date), and every emitted record itself carries a non-empty
slot list or a non-empty earliest date — a center with neither never appears. -/
theorem availability_filter (portal : String) (details : String → DetailResponse)
    (cs : List RawCenter) :
    processCenters portal details cs
      = ((dictPayloads cs).filter hasAvailability).map (mkSlotRecord portal details) ∧
    (∀ r, r ∈ processCenters portal details cs →
      (r.slots ≠ [] ∨ r.earliest_date ≠ "")) := by
  have heq : processCenters portal details cs
      = ((dictPayloads cs).filter hasAvailability).map (mkSlotRecord portal details) := by
    induction cs with
    | nil => rfl
    | cons c rest ih =>
        cases c with
        | nonDict => simpa [processCenters, dictPayloads, centerStep] using ih
        | dict p =>
            by_cases hp : hasAvailability p = true
            · simpa [processCenters, dictPayloads, centerStep, List.filter_cons, hp]
                using ih
            · simp only [Bool.not_eq_true] at hp
              simpa [processCenters, dictPayloads, centerStep, List.filter_cons, hp]
                using ih
  refine ⟨heq, ?_⟩
  intro r hr
  rw [heq] at hr
  simp only [List.mem_map, List.mem_filter] at hr
  obtain ⟨p, ⟨_, hp⟩, rfl⟩ := hr
  exact mkSlotRecord_available portal details p hp

/-- C7: a detail fetch that raised, answered with a non-200 status, or
answered 200 with a body that is neither a list nor a dict carrying a `dates`
key degrades to the empty date list instead of failing, and a center with
availability is still emitted from its summary data when its detail fetch
fails. -/
theorem detail_fetch_degrades (s : Nat) (hs : s ≠ 200) (b : DetailBody)
    (p : CenterPayload) (hp : hasAvailability p = true) (portal : String) :
    get_earliest_dates DetailResponse.failure = [] ∧
    get_earliest_dates (DetailResponse.http s b) = [] ∧
    get_earliest_dates (DetailResponse.http 200 DetailBody.other) = [] ∧
    get_earliest_dates (DetailResponse.http 200 (DetailBody.obj none)) = [] ∧
    processCenters portal (fun _ => DetailResponse.failure) [RawCenter.dict p]
      = [⟨extractName p, extractEarliest p, extractSlots p, portal⟩] := by
  refine ⟨rfl, ?_, rfl, rfl, ?_⟩
  · simp [get_earliest_dates, hs]
  · simp [processCenters, centerStep, hp, mkSlotRecord, get_earliest_dates,
      pyOrString_empty, pyOrList_nil]

/-- Witness for C7 at status 404 and a center carrying only an earliest date. -/
theorem detail_fetch_degrades_witness :
    get_earliest_dates (DetailResponse.http 404 DetailBody.other) = [] ∧
    processCenters "u" (fun _ => DetailResponse.failure)
        [RawCenter.dict ⟨none, none, none, none, none, some "2025-06-01", none⟩]
      = [⟨"Không rõ", "2025-06-01", [], "u"⟩] :=
  ⟨(detail_fetch_degrades 404 (by decide) DetailBody.other
      ⟨none, none, none, none, none, some "2025-06-01", none⟩ (by decide) "u").2.1,
    (detail_fetch_degrades 404 (by decide) DetailBody.other
      ⟨none, none, none, none, none, some "2025-06-01", none⟩ (by decide) "u").2.2.2.2⟩

/-- C8: the authenticate step fails with the `ConnectionError` carrying the
HTTP status and the credentials hint exactly when the login status is not a
2xx success; it fails with the `ValueError` that includes the raw response
body exactly when the status is a success but no token field is truthy; and
it returns the bearer token exactly on a success status with a truthy token. -/
theorem authenticate_spec (r : LoginResponse) :
    (authenticate r = .error (.connectionError (loginErrorMessage r.status)) ↔
      isSuccessStatus r.status = false) ∧
    (authenticate r = .error (.valueError (missingTokenMessage r.rawBody)) ↔
      (isSuccessStatus r.status = true ∧ extractToken r = none)) ∧
    (∀ t : String, authenticate r = .ok t ↔
      (isSuccessStatus r.status = true ∧ extractToken r = some t)) := by
  unfold authenticate
  cases hs : isSuccessStatus r.status with
  | false => simp
  | true => cases ht : extractToken r <;> simp

/-- C9 counterexample: a login call raising a transport exception whose
rendered text is empty (Python allows `str(e) = ""`, e.g. a bare timeout)
reaches the `except Exception` handler and yields a failed CountryResult
whose error field is the empty string — not a non-empty error text — and
`if r["error"]` (main.py lines 124 and 140) then treats that failed country
as a completed no-slot check. -/
theorem country_result_invariant_cex :
    check_available_slots_total (HttpStep.raised "")
        (HttpStep.response (200, CentersRaw.list []))
        (fun _ => DetailResponse.failure) (portalUrl "vnm" "fra")
      = Except.error (RaisedError.transport "") ∧
    (check_one_country_total "vnm" "fra"
        (Except.error (RaisedError.transport ""))).error = some "" ∧
    (check_one_country_total "vnm" "fra"
        (Except.error (RaisedError.transport ""))).slots = [] ∧
    pyTruthy (some "") = false := by
  refine ⟨rfl, rfl, rfl, by decide⟩

/-- C9 (amended): every per-country result satisfies: a completed check
yields error `None` with the checker's slot list, and a raised error yields
error `str(e)` with the empty slot list; the error text is non-empty whenever
the exception is one the checker raises itself (login HTTP failure, missing
token, centers HTTP failure), but an uncaught propagated exception may render
to the empty string. -/
theorem country_result_invariant_amended (origin country : String)
    (loginStep : HttpStep LoginResponse) (centersStep : HttpStep (Nat × CentersRaw))
    (details : String → DetailResponse) :
    (∀ l, check_available_slots_total loginStep centersStep details (portalUrl origin country)
        = .ok l →
      (check_one_country_total origin country
          (check_available_slots_total loginStep centersStep details
            (portalUrl origin country))).error = none ∧
      (check_one_country_total origin country
          (check_available_slots_total loginStep centersStep details
            (portalUrl origin country))).slots = l) ∧
    (∀ e, check_available_slots_total loginStep centersStep details (portalUrl origin country)
        = .error e →
      (check_one_country_total origin country
          (check_available_slots_total loginStep centersStep details
            (portalUrl origin country))).error = some (raisedText e) ∧
      (check_one_country_total origin country
          (check_available_slots_total loginStep centersStep details
            (portalUrl origin country))).slots = []) ∧
    (∀ e, check_available_slots_total loginStep centersStep details (portalUrl origin country)
        = .error (RaisedError.checker e) → errorText e ≠ "") := by
  refine ⟨?_, ?_, ?_⟩
  · intro l h
    rw [h]
    exact ⟨rfl, rfl⟩
  · intro e h
    rw [h]
    exact ⟨rfl, rfl⟩
  · intro e h
    cases loginStep with
    | raised m => simp [check_available_slots_total] at h
    | response lr =>
        simp only [check_available_slots_total] at h
        cases ha : authenticate lr with
        | error ea =>
            rw [ha] at h
            simp only [Except.error.injEq, RaisedError.checker.injEq] at h
            subst h
            exact authenticate_error_nonempty lr ea ha
        | ok t =>
            rw [ha] at h
            cases centersStep with
            | raised m => simp at h
            | response sr =>
                simp only [Except.mapError] at h
                cases hc : check_available_slots lr sr.1 sr.2 details
                    (portalUrl origin country) with
                | ok l => rw [hc] at h; simp at h
                | error ec =>
                    rw [hc] at h
                    simp only [Except.error.injEq, RaisedError.checker.injEq] at h
                    subst h
                    exact check_error_nonempty lr sr.1 sr.2 details _ ec hc

/-- Witness for the amended C9 on a successful empty-centers run. -/
theorem country_result_invariant_amended_witness :
    (check_one_country_total "vnm" "fra"
        (check_available_slots_total (HttpStep.response ⟨200, some "t", none, "r"⟩)
          (HttpStep.response (200, CentersRaw.list []))
          (fun _ => DetailResponse.failure) (portalUrl "vnm" "fra"))).error = none ∧
    (check_one_country_total "vnm" "fra"
        (check_available_slots_total (HttpStep.response ⟨200, some "t", none, "r"⟩)
          (HttpStep.response (200, CentersRaw.list []))
          (fun _ => DetailResponse.failure) (portalUrl "vnm" "fra"))).slots = [] :=
  (country_result_invariant_amended "vnm" "fra" (HttpStep.response ⟨200, some "t", none, "r"⟩)
    (HttpStep.response (200, CentersRaw.list [])) (fun _ => DetailResponse.failure)).1 [] rfl

/-- C10: given a success login status, a truthy `token` field wins, an
absent-or-falsy `token` field falls back to a truthy `access_token` field,
and the missing-token `ValueError` is raised exactly when neither field is
truthy. -/
theorem token_fallback (r : LoginResponse) (h : isSuccessStatus r.status = true) :
    (∀ t, strField r.token = some t → authenticate r = .ok t) ∧
    (strField r.token = none →
      ∀ t, strField r.access_token = some t → authenticate r = .ok t) ∧
    (authenticate r = .error (.valueError (missingTokenMessage r.rawBody)) ↔
      (strField r.token = none ∧ strField r.access_token = none)) := by
  unfold authenticate extractToken
  refine ⟨?_, ?_, ?_⟩
  · intro t ht; simp [h, ht, Option.orElse]
  · intro h0 t ht; simp [h, h0, ht, Option.orElse]
  · cases h0 : strField r.token <;> cases h1 : strField r.access_token <;>
      simp [h, h0, h1, Option.orElse]

/-- Witness for C10: a response whose token arrives under `access_token`. -/
theorem token_fallback_witness :
    authenticate ⟨200, none, some "tok2", "body"⟩ = .ok "tok2" :=
  (token_fallback ⟨200, none, some "tok2", "body"⟩ (by decide)).2.1 (by decide) "tok2" (by decide)

end VisaBot
